import Mathlib

/-!
Shallow embedding of the VES log-collection agent core, used to check the
natural-language specification against the source.

Source layout (Rust):
* services/log-collector/src/buffer_batcher/log_buffer_batcher.rs — InMemoryBuffer
* services/log-collector/src/shipper/shipper.rs — Shipper, connect_with_retry
* components/core-agent/src/tailer/tailer.rs, tailer_events.rs — Tailer manager
* components/core-agent/src/watcher/{watcher,state,discovery}.rs — Watcher/Checkpoint
* components/core-agent/src/parser/parser.rs — detect_format
* components/core-agent/src/helpers/converters.rs — wire conversions

Machine integers are modelled as Nat/Int (u64/usize values in the source stay
well below overflow in every statement below); fallible paths return Option or
a result inductive carrying the post-state; panicking paths are explicit
variants or `none`.  Concurrency primitives (channels, Notify, cancellation
tokens) are modelled by their documented synchronous semantics where a claim
needs them, and omitted where they carry no data relevant to any claim.
-/

namespace VES

/-! ## Data model (parser.rs)

`NormalizedLog` from parser.rs.  `chrono::DateTime<Utc>` is modelled by its
internal decomposition into whole seconds since the epoch and a nanosecond
part; chrono maintains the invariant `nanos < 2_000_000_000` (values at or
above 1e9 encode leap seconds).  `timestamp()` projects `secs` and
`timestamp_subsec_nanos()` projects `nanos`. -/

structure DateTimeUtc where
  secs : Int
  nanos : Nat
  deriving Repr, DecidableEq

structure Metadata where
  stream : String
  flag : Option String
  deriving Repr, DecidableEq

structure NormalizedLog where
  timestamp : DateTimeUtc
  level : Option String
  message : String
  metadata : Option Metadata
  raw_line : String
  deriving Repr, DecidableEq

/-! ## Buffer/Batcher (log_buffer_batcher.rs, load_config.rs)

`DurabilityConfig` / `Durability`: the SQLite pool handle carries no state
relevant to any claim, so the runtime variant is a bare tag; whether a given
SQL transaction succeeds is passed to `flush`/`push` as an explicit `txOk`
oracle (it models the `?`-propagated errors of `conn.transaction()`, the
row inserts and `tx.commit()`). -/

inductive DurabilityConfig where
  | InMemory
  | SQLite (path : String)
  deriving Repr, DecidableEq

structure BufferConfig where
  capacity_option : String
  buffer_capacity : Nat
  batch_size : Nat
  batch_timeout_ms : Nat
  durability : DurabilityConfig
  overflow_policy : String
  drain_policy : String
  flush_policy : String
  deriving Repr, DecidableEq

inductive Durability where
  | InMemory
  | SQLite
  deriving Repr, DecidableEq

/-- `InMemoryBuffer` (log_buffer_batcher.rs lines 19-31).  `queue` is the
`VecDeque<NormalizedLog>` front-first; `last_flush_at` is the `Instant`
in milliseconds; the `notify: Arc<Notify>` field carries no data and is
omitted. -/
structure InMemoryBuffer where
  queue : List NormalizedLog
  buffer_capacity : Nat
  batch_size : Nat
  batch_timeout_ms : Nat
  last_flush_at : Nat
  durability : Durability
  overflow_policy : String
  drain_policy : String
  flush_policy : String
  deriving Repr, DecidableEq

/-- `InMemoryBuffer::new` (lines 47-146).  `now` models `Instant::now()`;
`sqliteInitOk` models the pool-creation / `CREATE TABLE` steps, which return
`Err` before any buffer exists.  An invalid `capacity_option` is refused;
`VecDeque::with_capacity` only pre-allocates, the queue starts empty either
way. -/
def InMemoryBuffer.new (cfg : BufferConfig) (now : Nat) (sqliteInitOk : Bool) :
    Except String InMemoryBuffer :=
  if cfg.capacity_option = "bounded" ∨ cfg.capacity_option = "unbounded" then
    match cfg.durability with
    | .InMemory =>
        .ok { queue := [], buffer_capacity := cfg.buffer_capacity,
              batch_size := cfg.batch_size, batch_timeout_ms := cfg.batch_timeout_ms,
              last_flush_at := now, durability := .InMemory,
              overflow_policy := cfg.overflow_policy, drain_policy := cfg.drain_policy,
              flush_policy := cfg.flush_policy }
    | .SQLite _ =>
        if sqliteInitOk then
          .ok { queue := [], buffer_capacity := cfg.buffer_capacity,
                batch_size := cfg.batch_size, batch_timeout_ms := cfg.batch_timeout_ms,
                last_flush_at := now, durability := .SQLite,
                overflow_policy := cfg.overflow_policy, drain_policy := cfg.drain_policy,
                flush_policy := cfg.flush_policy }
        else .error "Failed to create SQLite connection pool"
  else .error "not a valid InMemoryBuffer capacity_option"

/-- Value of `usize::MAX` on a 64-bit target. -/
def usizeMax : Nat := 2 ^ 64 - 1

/-- `InMemoryBuffer::check_buffer_capacity` (lines 212-220).  The source
computes `self.buffer_capacity as usize - used_capacity` with plain `usize`
subtraction; when `used_capacity` exceeds `buffer_capacity` that subtraction
underflows (a panic in debug builds, a wrap in release builds), modelled here
as `none`. -/
def InMemoryBuffer.check_buffer_capacity (self : InMemoryBuffer) : Option Nat :=
  let used_capacity := self.queue.length
  if self.buffer_capacity = 0 then
    some usizeMax
  else if used_capacity ≤ self.buffer_capacity then
    some (self.buffer_capacity - used_capacity)
  else
    none

/-- Result of `handle_overflow` (lines 561-615): `ok post b` is `Ok(b)` with
post-state `post`; `blocked` is the `block_with_backpressure` arm parked on
`notify.notified().await` with no concurrent task to wake it. -/
inductive OverflowResult where
  | ok (post : InMemoryBuffer) (b : Bool)
  | blocked (post : InMemoryBuffer)
  deriving Repr, DecidableEq

/-- `InMemoryBuffer::handle_overflow` (lines 561-615).  `drop_newest` changes
nothing and returns `Ok(false)`; `drop_oldest` pops the queue front;
`block_with_backpressure` waits while the queue is at or above capacity;
`grow_capacity` only calls `VecDeque::reserve(1)`, which does not change the
queue contents; an unrecognized policy logs and returns `Ok(false)`. -/
def InMemoryBuffer.handle_overflow (self : InMemoryBuffer) : OverflowResult :=
  match self.overflow_policy with
  | "drop_newest" => .ok self false
  | "drop_oldest" =>
      .ok { self with queue := self.queue.tail } true
  | "block_with_backpressure" =>
      if self.queue.length ≥ self.buffer_capacity then .blocked self
      else .ok self false
  | "grow_capacity" => .ok self true
  | _ => .ok self false

/-- Result of `flush` (lines 288-404): `ok batch post` is
`Ok(Option<InMemoryBuffer>)` together with the mutated receiver `post`;
`err post` is an `Err` propagated by `?` with the receiver left in state
`post`. -/
inductive FlushResult where
  | ok (batch : Option InMemoryBuffer) (post : InMemoryBuffer)
  | err (post : InMemoryBuffer)
  deriving Repr, DecidableEq

/-- `InMemoryBuffer::flush` (lines 288-404).  The `lg` argument mirrors the
source's `log: NormalizedLog` parameter, which the body never reads.  `now`
models `Instant::now()`; `txOk` models the per-batch SQLite transaction
(open, inserts, commit).  Note the order of operations in the source: the
queue is drained (line 339) and the batch buffer built (line 346) *before*
the durability match runs the transaction, and on a transaction error the
`?` operator returns with the queue already drained and `last_flush_at`
not yet updated. -/
def InMemoryBuffer.flush (self : InMemoryBuffer) (lg : NormalizedLog) (now : Nat)
    (txOk : Bool) : FlushResult :=
  let _ := lg
  let flush_by_batch_size := self.queue.length ≥ self.batch_size
  let flush_by_batch_timeout_ms := now - self.last_flush_at > self.batch_timeout_ms
  let should_flush :=
    match self.flush_policy with
    | "batch_size" => flush_by_batch_size
    | "batch_timeout" => flush_by_batch_timeout_ms
    | "hybrid_size_timeout" => flush_by_batch_size || flush_by_batch_timeout_ms
    | _ => false
  if !should_flush then
    .ok none self
  else
    let flush_count :=
      if self.flush_policy = "batch_size" ∨ self.flush_policy = "hybrid_size_timeout" then
        min self.batch_size self.queue.length
      else
        self.queue.length
    let drained_logs := self.queue.take flush_count
    let self1 := { self with queue := self.queue.drop flush_count }
    let buffer := { self1 with queue := drained_logs, last_flush_at := self.last_flush_at }
    match self1.durability with
    | .SQLite =>
        if txOk then .ok (some buffer) { self1 with last_flush_at := now }
        else .err self1
    | .InMemory =>
        .ok (some buffer) { self1 with last_flush_at := now }

/-- Result of `push` (lines 232-275). -/
inductive PushResult where
  | ok (post : InMemoryBuffer)
  | err (post : InMemoryBuffer)
  deriving Repr, DecidableEq

/-- `InMemoryBuffer::push` (lines 232-275).  When the buffer is bounded and
full the source executes `self.handle_overflow();` WITHOUT `.await`
(line 241): the returned future is dropped unpolled, so the overflow
handler body never runs and its `Ok(bool)` result is discarded — the
branch has no effect on the queue, which this embedding reflects by
performing no state change there.  The log is then appended
unconditionally; in SQLite mode `push` also calls `flush` (line 260) and
propagates its error. -/
def InMemoryBuffer.push (self : InMemoryBuffer) (lg : NormalizedLog) (now : Nat)
    (txOk : Bool) : PushResult :=
  match self.durability with
  | .InMemory =>
      .ok { self with queue := self.queue ++ [lg] }
  | .SQLite =>
      let self1 := { self with queue := self.queue ++ [lg] }
      match self1.flush lg now txOk with
      | .err post => .err post
      | .ok _ post => .ok post

/-- `InMemoryBuffer::drain` (lines 491-547).  All arms return `Ok(())`; only
the queue mutation is observable.  `now` models `Instant::now()`. -/
def InMemoryBuffer.drain (self : InMemoryBuffer) (now : Nat) : InMemoryBuffer :=
  match self.drain_policy with
  | "drain_all" => { self with queue := [] }
  | "drain_batch_size" =>
      if self.queue.length ≥ self.batch_size then
        { self with queue := self.queue.drop self.batch_size }
      else self
  | "drain_batch_timeout" =>
      if now - self.last_flush_at > self.batch_timeout_ms then
        { self with queue := [] }
      else self
  | _ => self

/-- Buffer states reachable through `new`, `push`, `flush` and `drain`,
with arbitrary clock readings and transaction outcomes. -/
inductive BufferReachable : InMemoryBuffer → Prop where
  | new {cfg now ok b} : InMemoryBuffer.new cfg now ok = .ok b → BufferReachable b
  | pushOk {b lg now tx b2} : BufferReachable b → b.push lg now tx = .ok b2 →
      BufferReachable b2
  | pushErr {b lg now tx b2} : BufferReachable b → b.push lg now tx = .err b2 →
      BufferReachable b2
  | flushOk {b lg now tx batch b2} : BufferReachable b →
      b.flush lg now tx = .ok batch b2 → BufferReachable b2
  | flushErr {b lg now tx b2} : BufferReachable b → b.flush lg now tx = .err b2 →
      BufferReachable b2
  | drainStep {b now} : BufferReachable b → BufferReachable (b.drain now)

/-! ## Shipper handoff channel (shipper.rs)

`Shipper::new` (line 91) creates the bounded handoff channel with
`mpsc::channel(1)`.  A tokio bounded mpsc channel is modelled by its message
list, its capacity, and whether the receiving side has been dropped.  Per
tokio's documented semantics, `Sender::send(value).await`:
* returns `Err(SendError(value))` when the channel is closed,
* completes with `Ok(())` once capacity is reserved, appending the value,
* otherwise (channel full and open) suspends until the receiver frees a slot.
-/

structure MpscChannel (α : Type) where
  capacity : Nat
  msgs : List α
  closed : Bool

inductive ChannelSendResult (α : Type) where
  | ok (post : MpscChannel α)
  | closedErr
  | suspended

/-- Tokio `mpsc::Sender::send` semantics on a channel snapshot. -/
def mpscSend {α : Type} (ch : MpscChannel α) (x : α) : ChannelSendResult α :=
  if ch.closed then .closedErr
  else if ch.msgs.length < ch.capacity then .ok { ch with msgs := ch.msgs ++ [x] }
  else .suspended

/-- `ShipperError` (shipper.rs lines 67-75). -/
inductive ShipperError where
  | QueueFull
  | ConnectionFailed (msg : String)
  | StreamError (msg : String)
  deriving Repr, DecidableEq

/-- Capacity of the handoff channel created in `Shipper::new` (line 91). -/
def shipperChannelCapacity : Nat := 1

/-- Observable outcome of `Shipper::send`: an `Ok` return with the new channel
state, an `Err(ShipperError)` return, or suspension of the caller inside
`self.sender.send(batch).await`. -/
inductive ShipperSendResult where
  | ok (post : MpscChannel InMemoryBuffer)
  | error (e : ShipperError)
  | suspended

/-- `Shipper::send` (shipper.rs lines 121-131):
`self.sender.send(batch).await.map_err(|_| ShipperError::QueueFull)`.
Only the `Err` of the underlying channel send — which tokio produces solely
when the channel is closed — is mapped to `QueueFull`; a saturated open
channel leaves the caller suspended inside the `.await`. -/
def shipperSend (ch : MpscChannel InMemoryBuffer) (batch : InMemoryBuffer) :
    ShipperSendResult :=
  match mpscSend ch batch with
  | .ok post => .ok post
  | .closedErr => .error .QueueFull
  | .suspended => .suspended

/-! ## Shipper connect_with_retry (shipper.rs lines 326-391)

`ShipperConfig` from load_config.rs.  The two `f64` fields are modelled over
ℚ; every arithmetic step appearing in the claims below (`10 × 2`, `min` with
1000, `1.0 − 0.0`) is exact in `f64`, so no rounding behaviour is lost for
those statements. -/

structure ShipperConfig where
  embedder_target_addr : String
  connection_timeout_ms : Nat
  max_reconnect_attempts : Option Nat
  initial_retry_delay_ms : Nat
  max_retry_delay_ms : Nat
  backoff_factor : ℚ
  retry_jitter : ℚ
  send_timeout_ms : Nat
  response_timeout_ms : Nat
  deriving Repr, DecidableEq

/-- `rand::thread_rng().gen_range(lo..hi)` on `f64`: draws uniformly from the
half-open range `lo..hi`; rand panics with "cannot sample empty range" when
`lo ≥ hi`, modelled as `none`.  `u ∈ [0,1)` is the oracle sample position. -/
def genRange (lo hi u : ℚ) : Option ℚ :=
  if lo < hi then some (lo + u * (hi - lo)) else none

/-- Outcome of `connect_with_retry`: `connected sleeps` lists the performed
sleep durations (milliseconds) before the successful attempt; `failed` is the
`Err` return after `max_reconnect_attempts`; `panicked` is the rand
empty-range panic, with the sleeps performed before it; `fuelOut` marks
simulation fuel exhaustion (the source loops indefinitely). -/
inductive RetryOutcome where
  | connected (sleeps : List ℚ)
  | failed (sleeps : List ℚ)
  | panicked (sleeps : List ℚ)
  | fuelOut
  deriving Repr, DecidableEq

/-- Loop body of `connect_with_retry` (lines 335-390).  `connects n` tells
whether the n-th attempt's `endpoint.connect().await` succeeds; `samples n`
is the rand oracle for the jitter draw after the n-th failure; `delay` is the
current backoff delay in whole milliseconds (the source rebuilds it from a
`u64` of milliseconds each iteration, truncating via `as u64`). -/
def connectRetryGo (cfg : ShipperConfig) (connects : Nat → Bool) (samples : Nat → ℚ) :
    Nat → Nat → Nat → RetryOutcome
  | 0, _, _ => .fuelOut
  | fuel + 1, attempts, delay =>
    let attempts := attempts + 1
    if connects attempts then .connected []
    else if (match cfg.max_reconnect_attempts with
             | some lim => decide (attempts ≥ lim)
             | none => false) then .failed []
    else
      match genRange (1 - cfg.retry_jitter) (1 + cfg.retry_jitter) (samples attempts) with
      | none => .panicked []
      | some jitter_factor =>
        let sleep_duration : ℚ := (delay : ℚ) * jitter_factor
        let delay2 : Nat :=
          ⌊min ((delay : ℚ) * cfg.backoff_factor) ((cfg.max_retry_delay_ms : ℚ))⌋.toNat
        match connectRetryGo cfg connects samples fuel attempts delay2 with
        | .connected s => .connected (sleep_duration :: s)
        | .failed s => .failed (sleep_duration :: s)
        | .panicked s => .panicked (sleep_duration :: s)
        | .fuelOut => .fuelOut

/-- `connect_with_retry` (lines 326-391): starts with `attempts = 0` and
`delay = initial_retry_delay_ms`. -/
def connect_with_retry (cfg : ShipperConfig) (connects : Nat → Bool)
    (samples : Nat → ℚ) (fuel : Nat) : RetryOutcome :=
  connectRetryGo cfg connects samples fuel 0 cfg.initial_retry_delay_ms

/-! ## Tailer manager (tailer.rs, tailer_events.rs)

`Tailer::new` stores inode, path and offset (plus the output channel sender
and cancellation token, which carry no data used by any claim).  The manager
map `HashMap<Inode, TailerHandle>` stores join/cancel handles only, so it is
modelled by its key set; `start_tailer`'s spawn is observable through the
`Tailer` value moved into the spawned task, returned here alongside the
updated key set. -/

structure Tailer where
  inode : Nat
  path : String
  offset : Nat
  deriving Repr, DecidableEq

/-- `Tailer::new` (tailer.rs lines 23-37). -/
def Tailer.new (inode : Nat) (path : String) (offset : Nat) : Tailer :=
  { inode := inode, path := path, offset := offset }

/-- `start_tailer` (tailer.rs lines 67-97): if the map already contains the
inode, return at once (no spawn); otherwise spawn `Tailer::new(inode, path,
0, ...)` — the offset argument is the literal `0`, no checkpoint is consulted
— and insert the handle. -/
def start_tailer (inode : Nat) (path : String) (tailers : List Nat) :
    List Nat × Option Tailer :=
  if tailers.contains inode then
    (tailers, none)
  else
    let new_tailer := Tailer.new inode path 0
    (inode :: tailers, some new_tailer)

/-- `FileState` (watcher/models.rs lines 48-52). -/
structure FileState where
  path : String
  inode : Nat
  offset : Nat
  deriving Repr, DecidableEq

/-- `Checkpoint` (watcher/models.rs lines 58-60): the `HashMap<Inode, FileState>`
modelled as an association list keyed by inode. -/
structure Checkpoint where
  files : List (Nat × FileState)
  deriving Repr, DecidableEq

def Checkpoint.insertFile (cp : Checkpoint) (inode : Nat) (st : FileState) :
    Checkpoint :=
  { files := (inode, st) :: cp.files.filter (fun p => p.1 ≠ inode) }

def Checkpoint.removeFile (cp : Checkpoint) (inode : Nat) : Checkpoint :=
  { files := cp.files.filter (fun p => p.1 ≠ inode) }

def Checkpoint.lookupState (cp : Checkpoint) (inode : Nat) : Option FileState :=
  cp.files.lookup inode

/-- Modelled from the spec: the starting offset the Tailer Manager is
specified to use — "spawn Tailer with offset from Checkpoint (or 0)"
(§4.2).  Used only to state claim C3 against the source's `start_tailer`. -/
def specTailerStartOffset (cp : Checkpoint) (inode : Nat) : Nat :=
  match cp.lookupState inode with
  | some st => st.offset
  | none => 0

/-- `TailerEvent` (tailer/models.rs, as consumed by `handle_event`). -/
inductive TailerEvent where
  | Start (inode : Nat) (path : String)
  | Stop (inode : Nat) (path : String)
  | Rotate (old_inode new_inode : Nat) (path : String)
  deriving Repr, DecidableEq

/-- `stop_tailer` as used by `handle_event` (tailer_events.rs line 69):
cancels and removes the handle for the inode. -/
def stop_tailer (inode : Nat) (tailers : List Nat) : List Nat :=
  tailers.filter (fun i => i ≠ inode)

/-- `handle_event` (tailer_events.rs lines 56-76), returning the updated key
set and the Tailer spawned by this event, if any. -/
def handle_event (event : TailerEvent) (tailers : List Nat) :
    List Nat × Option Tailer :=
  match event with
  | .Start inode path => start_tailer inode path tailers
  | .Stop inode _ => (stop_tailer inode tailers, none)
  | .Rotate old_inode new_inode path =>
      start_tailer new_inode path (stop_tailer old_inode tailers)

/-! ## Watcher checkpoint transitions (watcher.rs, state.rs, discovery.rs)

The operations that mutate the `Checkpoint` map:
* bootstrap discovery (`discover_initial_files`, discovery.rs lines 19-61):
  skip inodes already present ("Restoring file from Checkpoint"), otherwise
  insert the state from `determine_file_state`, whose `offset` is the file's
  current size `metadata.len()` (state.rs line 33);
* periodic rescan (`discover_new_files`, lines 68-105): same skip-or-insert;
* native events (`Watcher::build_payload`, watcher.rs lines 34-88):
  `FileDiscovered` inserts `FileState { offset: 0 }` unconditionally;
  `FileRotated` removes the old inode and inserts the new one with offset 0;
  `FileRemoved` removes the inode.
Each operation carries the already-resolved inode and (for discovery) the
file size reported by `metadata`. -/

inductive WatcherOp where
  | bootstrapDiscover (inode : Nat) (path : String) (size : Nat)
  | rescanDiscover (inode : Nat) (path : String) (size : Nat)
  | nativeDiscovered (inode : Nat) (path : String)
  | nativeRotated (old_inode new_inode : Nat) (old_path new_path : String)
  | nativeRemoved (inode : Nat) (path : String)
  deriving Repr, DecidableEq

def watcherStep (cp : Checkpoint) : WatcherOp → Checkpoint
  | .bootstrapDiscover inode path size =>
      if (cp.lookupState inode).isSome then cp
      else cp.insertFile inode { path := path, inode := inode, offset := size }
  | .rescanDiscover inode path size =>
      if (cp.lookupState inode).isSome then cp
      else cp.insertFile inode { path := path, inode := inode, offset := size }
  | .nativeDiscovered inode path =>
      cp.insertFile inode { path := path, inode := inode, offset := 0 }
  | .nativeRotated old_inode new_inode _ new_path =>
      (cp.removeFile old_inode).insertFile new_inode
        { path := new_path, inode := new_inode, offset := 0 }
  | .nativeRemoved inode _ =>
      cp.removeFile inode

/-! ## Parser format detection (parser.rs lines 79-141)

Each anchored regex of `detect_format` is hand-compiled into a prefix matcher
over `List Char`.  Every repetition operator in those patterns is followed by
a character class disjoint from the repeated class (digits before `>`/`:`/`T`
etc.), so maximal munch is equivalent to the regex engine's backtracking
search, and a `^`-anchored `is_match` succeeds exactly when the pattern
matches a prefix.  `\d` and `\s` agree with `Char.isDigit`/`Char.isWhitespace`
on the ASCII inputs all claims use. -/

/-- Match one character satisfying `p`, returning the rest. -/
def matchChar (p : Char → Bool) : List Char → Option (List Char)
  | [] => none
  | c :: rest => if p c then some rest else none

/-- Match exactly `n` characters satisfying `p`. -/
def matchRep (p : Char → Bool) : Nat → List Char → Option (List Char)
  | 0, cs => some cs
  | n + 1, cs => (matchChar p cs).bind (matchRep p n)

/-- Match one or more characters satisfying `p` (maximal munch). -/
def matchMany1 (p : Char → Bool) (cs : List Char) : Option (List Char) :=
  let taken := cs.takeWhile p
  if taken.isEmpty then none else some (cs.drop taken.length)

/-- Match between `lo` and `hi` characters satisfying `p` (maximal munch). -/
def matchBetween (p : Char → Bool) (lo hi : Nat) (cs : List Char) :
    Option (List Char) :=
  let taken := min (cs.takeWhile p).length hi
  if taken < lo then none else some (cs.drop taken)

/-- Match the literal string `s`. -/
def matchLit (s : String) (cs : List Char) : Option (List Char) :=
  let sl := s.toList
  if cs.take sl.length = sl then some (cs.drop sl.length) else none

/-- Shared tail of both 5424 patterns: `\d{2}:\d{2}:\d{2}`. -/
def matchClockTime (cs : List Char) : Option (List Char) := do
  let r ← matchRep Char.isDigit 2 cs
  let r ← matchChar (· = ':') r
  let r ← matchRep Char.isDigit 2 r
  let r ← matchChar (· = ':') r
  matchRep Char.isDigit 2 r

/-- Optional fractional seconds then `Z`: `(?:\.\d+)?Z`.  If the group
matches, `Z` must follow the digits; if the group is skipped, `Z` must be
next — a failed `Z` after a matched group cannot be rescued by backtracking
into the group, because the group consumes a leading `.` which is not `Z`. -/
def matchFracZ (cs : List Char) : Option (List Char) :=
  let afterFrac :=
    match matchChar (· = '.') cs with
    | some r => matchMany1 Char.isDigit r
    | none => none
  match afterFrac with
  | some r => matchChar (· = 'Z') r
  | none => matchChar (· = 'Z') cs

/-- The CRI regex (parser.rs line 83):
`^[0-9]{4}-[0-9]{2}-[0-9]{2}T[0-9]{2}:[0-9]{2}:[0-9]{2}\.[0-9]+Z (stdout|stderr) [FP] `
(`is_match`, so only the prefix must match). -/
def criRegexMatch (cs : List Char) : Bool :=
  (do
    let r ← matchRep Char.isDigit 4 cs
    let r ← matchChar (· = '-') r
    let r ← matchRep Char.isDigit 2 r
    let r ← matchChar (· = '-') r
    let r ← matchRep Char.isDigit 2 r
    let r ← matchChar (· = 'T') r
    let r ← matchClockTime r
    let r ← matchChar (· = '.') r
    let r ← matchMany1 Char.isDigit r
    let r ← matchChar (· = 'Z') r
    let r ← matchChar (· = ' ') r
    let r ← (matchLit "stdout" r <|> matchLit "stderr" r)
    let r ← matchChar (· = ' ') r
    let r ← matchChar (fun c => c = 'F' || c = 'P') r
    matchChar (· = ' ') r).isSome

/-- The RFC3164 regex as written in the source (parser.rs line 113):
`^<\d+[A-Z][a-z]{2}\s+\d{1,2}\s\d{2}:\d{2}:\d{2}` — note there is NO `>`
between `\d+` and `[A-Z]`. -/
def codeSyslog3164Match (cs : List Char) : Bool :=
  (do
    let r ← matchChar (· = '<') cs
    let r ← matchMany1 Char.isDigit r
    let r ← matchChar (fun c => 'A' ≤ c && c ≤ 'Z') r
    let r ← matchRep (fun c => 'a' ≤ c && c ≤ 'z') 2 r
    let r ← matchMany1 Char.isWhitespace r
    let r ← matchBetween Char.isDigit 1 2 r
    let r ← matchChar Char.isWhitespace r
    matchClockTime r).isSome

/-- The RFC5424 regex as written in the source (parser.rs line 114):
`^<\d+>\d\s\d{4}-\d{2}T\d{2}:\d{2}:\d{2}(?:\.\d+)?Z` — note the date part is
`\d{4}-\d{2}T`, with no day-of-month component. -/
def codeSyslog5424Match (cs : List Char) : Bool :=
  (do
    let r ← matchChar (· = '<') cs
    let r ← matchMany1 Char.isDigit r
    let r ← matchChar (· = '>') r
    let r ← matchChar Char.isDigit r
    let r ← matchChar Char.isWhitespace r
    let r ← matchRep Char.isDigit 4 r
    let r ← matchChar (· = '-') r
    let r ← matchRep Char.isDigit 2 r
    let r ← matchChar (· = 'T') r
    let r ← matchClockTime r
    matchFracZ r).isSome

/-- Modelled from the spec: the RFC5424 detection regex of §4.3
`^<\d+>\d \d{4}-\d{2}-\d{2}T\d{2}:\d{2}:\d{2}(?:\.\d+)?Z` (with a literal
space after the version digit and a full year-month-day date).  Used only to
state claim C6 against the source's `detect_format`. -/
def specSyslog5424Match (cs : List Char) : Bool :=
  (do
    let r ← matchChar (· = '<') cs
    let r ← matchMany1 Char.isDigit r
    let r ← matchChar (· = '>') r
    let r ← matchChar Char.isDigit r
    let r ← matchChar (· = ' ') r
    let r ← matchRep Char.isDigit 4 r
    let r ← matchChar (· = '-') r
    let r ← matchRep Char.isDigit 2 r
    let r ← matchChar (· = '-') r
    let r ← matchRep Char.isDigit 2 r
    let r ← matchChar (· = 'T') r
    let r ← matchClockTime r
    matchFracZ r).isSome

/-- Modelled from the spec: the RFC3164 detection regex of §4.3
`^<\d+>[A-Z][a-z]{2}\s+\d{1,2}\s\d{2}:\d{2}:\d{2}` (with the closing `>`
after the priority digits).  Used only to state claim C6 against the
source's `detect_format`. -/
def specSyslog3164Match (cs : List Char) : Bool :=
  (do
    let r ← matchChar (· = '<') cs
    let r ← matchMany1 Char.isDigit r
    let r ← matchChar (· = '>') r
    let r ← matchChar (fun c => 'A' ≤ c && c ≤ 'Z') r
    let r ← matchRep (fun c => 'a' ≤ c && c ≤ 'z') 2 r
    let r ← matchMany1 Char.isWhitespace r
    let r ← matchBetween Char.isDigit 1 2 r
    let r ← matchChar Char.isWhitespace r
    matchClockTime r).isSome

/-! ### JSON detection (parser.rs lines 94-110)

`serde_json::from_slice::<serde_json::Value>(line)` parses the entire line as
one JSON value (leading/trailing JSON whitespace allowed, anything else is an
error).  The grammar below follows the JSON specification; `\uXXXX` escapes
are decoded without surrogate-pair combination and numbers are not evaluated,
neither of which is observable through `detect_format`, which only asks
whether the parse succeeds and which keys a top-level object holds. -/

inductive JsonValue where
  | null
  | bool (b : Bool)
  | num
  | str (s : List Char)
  | arr (xs : List JsonValue)
  | obj (fields : List (List Char × JsonValue))
  deriving Repr

/-- JSON insignificant whitespace. -/
def jsonIsWs (c : Char) : Bool :=
  c = ' ' || c = '\t' || c = '\n' || c = '\r'

/-- Hexadecimal digit test. -/
def isHexDigitChar (c : Char) : Bool :=
  c.isDigit || ('a' ≤ c && c ≤ 'f') || ('A' ≤ c && c ≤ 'F')

/-- Numeric value of a hexadecimal digit. -/
def hexVal (c : Char) : Nat :=
  if c.isDigit then c.toNat - 48
  else if 'a' ≤ c && c ≤ 'f' then c.toNat - 87
  else c.toNat - 55

/-- Parse the body of a JSON string after its opening quote; returns the
decoded content and the rest after the closing quote. -/
def parseJsonString : Nat → List Char → Option (List Char × List Char)
  | 0, _ => none
  | _, [] => none
  | fuel + 1, c :: rest =>
    if c = '"' then some ([], rest)
    else if c = '\\' then
      match rest with
      | [] => none
      | e :: rest2 =>
        let simpleEsc : Option Char :=
          if e = '"' then some '"'
          else if e = '\\' then some '\\'
          else if e = '/' then some '/'
          else if e = 'b' then some (Char.ofNat 8)
          else if e = 'f' then some (Char.ofNat 12)
          else if e = 'n' then some '\n'
          else if e = 'r' then some (Char.ofNat 13)
          else if e = 't' then some '\t'
          else none
        match simpleEsc with
        | some d => (parseJsonString fuel rest2).map (fun p => (d :: p.1, p.2))
        | none =>
          if e = 'u' then
            match rest2 with
            | h1 :: h2 :: h3 :: h4 :: rest3 =>
              if isHexDigitChar h1 && isHexDigitChar h2 && isHexDigitChar h3 &&
                  isHexDigitChar h4 then
                let n := ((hexVal h1 * 16 + hexVal h2) * 16 + hexVal h3) * 16 + hexVal h4
                (parseJsonString fuel rest3).map (fun p => (Char.ofNat n :: p.1, p.2))
              else none
            | _ => none
          else none
    else if c.toNat < 32 then none
    else (parseJsonString fuel rest).map (fun p => (c :: p.1, p.2))

/-- Consume a JSON number `-?(0|[1-9][0-9]*)(\.[0-9]+)?([eE][+-]?[0-9]+)?`;
returns the rest, or `none` when no valid number starts here. -/
def parseJsonNumber (cs : List Char) : Option (List Char) := do
  let cs1 := match cs with
    | '-' :: r => r
    | _ => cs
  let afterInt ← match cs1 with
    | '0' :: r => some r
    | c :: r => if c.isDigit then some (r.dropWhile Char.isDigit) else none
    | [] => none
  let afterFrac ← match afterInt with
    | '.' :: r =>
        if (r.takeWhile Char.isDigit).isEmpty then none
        else some (r.dropWhile Char.isDigit)
    | _ => some afterInt
  match afterFrac with
  | c :: r =>
      if c = 'e' || c = 'E' then
        let r2 := match r with
          | s :: r3 => if s = '+' || s = '-' then r3 else s :: r3
          | [] => []
        if (r2.takeWhile Char.isDigit).isEmpty then none
        else some (r2.dropWhile Char.isDigit)
      else some (c :: r)
  | [] => some []

mutual

/-- Parse one JSON value (fuel-indexed); returns the value and the rest. -/
def parseJsonValue : Nat → List Char → Option (JsonValue × List Char)
  | 0, _ => none
  | fuel + 1, cs =>
    match cs.dropWhile jsonIsWs with
    | [] => none
    | c :: rest =>
      if c = '{' then
        match rest.dropWhile jsonIsWs with
        | '}' :: r2 => some (.obj [], r2)
        | r => (parseJsonMembers fuel r).map (fun p => (.obj p.1, p.2))
      else if c = '[' then
        match rest.dropWhile jsonIsWs with
        | ']' :: r2 => some (.arr [], r2)
        | r => (parseJsonElements fuel r).map (fun p => (.arr p.1, p.2))
      else if c = '"' then
        (parseJsonString (rest.length + 1) rest).map (fun p => (.str p.1, p.2))
      else if c = 't' then
        (matchLit "rue" rest).map (fun r => (.bool true, r))
      else if c = 'f' then
        (matchLit "alse" rest).map (fun r => (.bool false, r))
      else if c = 'n' then
        (matchLit "ull" rest).map (fun r => (.null, r))
      else
        (parseJsonNumber (c :: rest)).map (fun r => (JsonValue.num, r))

/-- Parse the members of a non-empty JSON object, up to and including the
closing brace. -/
def parseJsonMembers : Nat → List Char →
    Option (List (List Char × JsonValue) × List Char)
  | 0, _ => none
  | fuel + 1, cs =>
    match cs.dropWhile jsonIsWs with
    | '"' :: rest => do
      let (key, r) ← parseJsonString (rest.length + 1) rest
      match r.dropWhile jsonIsWs with
      | ':' :: r2 => do
        let (v, r3) ← parseJsonValue fuel r2
        match r3.dropWhile jsonIsWs with
        | ',' :: r5 => (parseJsonMembers fuel r5).map (fun p => ((key, v) :: p.1, p.2))
        | '}' :: r5 => some ([(key, v)], r5)
        | _ => none
      | _ => none
    | _ => none

/-- Parse the elements of a non-empty JSON array, up to and including the
closing bracket. -/
def parseJsonElements : Nat → List Char → Option (List JsonValue × List Char)
  | 0, _ => none
  | fuel + 1, cs => do
    let (v, r) ← parseJsonValue fuel cs
    match r.dropWhile jsonIsWs with
    | ',' :: r3 => (parseJsonElements fuel r3).map (fun p => (v :: p.1, p.2))
    | ']' :: r3 => some ([v], r3)
    | _ => none

end

/-- `serde_json::from_slice::<serde_json::Value>`: the whole input must be one
JSON value surrounded by at most JSON whitespace. -/
def jsonFromSlice (cs : List Char) : Option JsonValue :=
  match parseJsonValue (cs.length + 1) cs with
  | some (v, rest) => if (rest.dropWhile jsonIsWs).isEmpty then some v else none
  | none => none

/-- `serde_json::Value::get(key)` on an object (with serde's map semantics a
repeated key keeps the last occurrence); `None` on non-objects. -/
def JsonValue.getKey : JsonValue → String → Option JsonValue
  | .obj fields, key => (fields.reverse.lookup key.toList)
  | _, _ => none

/-- `SyslogVariant` (parser.rs lines 53-56). -/
inductive SyslogVariant where
  | RFC3164
  | RFC5424
  deriving Repr, DecidableEq

/-- `LogFormat` (parser.rs lines 43-49). -/
inductive LogFormat where
  | CRI
  | DockerJSON
  | ArbitraryJSON
  | Syslog (v : SyslogVariant)
  | Unknown
  deriving Repr, DecidableEq

/-- The syslog checks at the end of `detect_format` (parser.rs lines
112-140): the source tests its RFC3164 regex first (`syslog_rfc[0]`), then
its RFC5424 regex, then falls back to `Unknown`. -/
def detectSyslogBranch (cs : List Char) : LogFormat :=
  if codeSyslog3164Match cs then .Syslog .RFC3164
  else if codeSyslog5424Match cs then .Syslog .RFC5424
  else .Unknown

/-- `NormalizedLog::detect_format` (parser.rs lines 79-141): trim leading
whitespace (`str::trim_start`), test the CRI regex, then try the JSON
object checks — note that when the line parses as JSON but carries neither
the Docker keys nor a `time` key, control falls through to the syslog
regexes — and finally the two syslog regexes as written in the source. -/
def detect_format (line : String) : LogFormat :=
  let cs := line.toList.dropWhile Char.isWhitespace
  if criRegexMatch cs then .CRI
  else
    match jsonFromSlice cs with
    | some v =>
        if (v.getKey "log").isSome && (v.getKey "stream").isSome &&
            (v.getKey "time").isSome then .DockerJSON
        else if (v.getKey "time").isSome then .ArbitraryJSON
        else detectSyslogBranch cs
    | none => detectSyslogBranch cs

/-! ## Wire conversions (core-agent helpers/converters.rs) -/

/-- `prost_types::Timestamp`: `seconds: i64`, `nanos: i32`. -/
structure ProtoTimestamp where
  seconds : Int
  nanos : Int
  deriving Repr, DecidableEq

/-- `proto::common::Metadata`. -/
structure ProtoMetadata where
  stream : String
  flag : Option String
  deriving Repr, DecidableEq

/-- `proto::common::NormalizedLog`. -/
structure ProtoNormalizedLog where
  timestamp : Option ProtoTimestamp
  level : Option String
  message : String
  metadata : Option ProtoMetadata
  raw_line : String
  deriving Repr, DecidableEq

/-- The `as i32` cast applied to a `u32` value: reinterpret modulo 2^32 into
the signed range. -/
def castU32ToI32 (n : Nat) : Int :=
  let m : Nat := n % 2 ^ 32
  if m < 2 ^ 31 then (m : Int) else (m : Int) - 2 ^ 32

/-- `From<InternalMetadata> for ProtoMetadata` (converters.rs lines 13-20). -/
def metadataToProto (m : Metadata) : ProtoMetadata :=
  { stream := m.stream, flag := m.flag }

/-- `From<InternalNormalizedLog> for ProtoNormalizedLog` (converters.rs lines
23-40): the timestamp is encoded as
`Timestamp { seconds: ts.timestamp(), nanos: ts.timestamp_subsec_nanos() as i32 }`. -/
def normalizedLogToProto (lg : NormalizedLog) : ProtoNormalizedLog :=
  { timestamp := some { seconds := lg.timestamp.secs,
                        nanos := castU32ToI32 lg.timestamp.nanos },
    level := lg.level,
    message := lg.message,
    metadata := lg.metadata.map metadataToProto,
    raw_line := lg.raw_line }

/-- Modelled from the spec: the wire → `NormalizedLog` direction of the
round-trip law (§8: "NormalizedLog → wire → NormalizedLog is the identity on
(timestamp, level, message, metadata, raw_line)").  The decoding converter is
not under src/ — the log-collector's `helpers::converters` module that its
shipper imports is absent from the tree — so it is modelled from the spec's
wire contract (§6): decode the (seconds, nanos) pair back into the timestamp
and copy level, message, metadata and raw_line. -/
def protoToNormalizedLog (p : ProtoNormalizedLog) : NormalizedLog :=
  { timestamp :=
      match p.timestamp with
      | some t => { secs := t.seconds, nanos := t.nanos.toNat }
      | none => { secs := 0, nanos := 0 },
    level := p.level,
    message := p.message,
    metadata := p.metadata.map (fun m => { stream := m.stream, flag := m.flag }),
    raw_line := p.raw_line }

/-! ## Concrete values used by the claim theorems and witnesses -/

def lgEx : NormalizedLog :=
  { timestamp := { secs := 1700000000, nanos := 123 },
    level := some "INFO",
    message := "hello world",
    metadata := some { stream := "stdout", flag := some "F" },
    raw_line := "raw line one" }

def lgEx2 : NormalizedLog :=
  { timestamp := { secs := 1700000001, nanos := 456 },
    level := none,
    message := "second message",
    metadata := none,
    raw_line := "raw line two" }

/-- Buffer for C1: sqlite durability, one queued record, size-driven flush
with `batch_size = 1`, so the next flush drains exactly that record. -/
def bSqlC1 : InMemoryBuffer :=
  { queue := [lgEx], buffer_capacity := 0, batch_size := 1,
    batch_timeout_ms := 1000, last_flush_at := 0, durability := .SQLite,
    overflow_policy := "drop_newest", drain_policy := "drain_all",
    flush_policy := "batch_size" }

/-- Buffer for C2: bounded at capacity 1, already full, `drop_newest`
overflow policy, in-memory durability. -/
def bFullC2 : InMemoryBuffer :=
  { queue := [lgEx], buffer_capacity := 1, batch_size := 100,
    batch_timeout_ms := 1000, last_flush_at := 0, durability := .InMemory,
    overflow_policy := "drop_newest", drain_policy := "drain_all",
    flush_policy := "batch_size" }

/-- Checkpoint for C3: identity 7 is recorded with offset 42. -/
def cpC3 : Checkpoint :=
  { files := [(7, { path := "/var/log/app.log", inode := 7, offset := 42 })] }

/-- Channel for C4: the `Shipper::new` handoff channel (capacity 1), open,
already holding one batch — saturated. -/
def chFullC4 : MpscChannel InMemoryBuffer :=
  { capacity := shipperChannelCapacity, msgs := [bFullC2], closed := false }

/-- C5 trace, first step: bootstrap discovery of a 42-byte file with
inode 7 records offset 42 in the checkpoint. -/
def cpC5a : Checkpoint :=
  watcherStep { files := [] } (.bootstrapDiscover 7 "/var/log/a.log" 42)

/-- C5 trace, second step: a native create event for the same inode. -/
def cpC5b : Checkpoint := watcherStep cpC5a (.nativeDiscovered 7 "/var/log/a.log")

/-- A line matching the spec's RFC5424 detection regex. -/
def s5424ex : String := "<34>1 2003-10-11T22:14:15.003Z mymachine su 77 ID47 msg"

/-- A line matching the spec's RFC3164 detection regex. -/
def s3164ex : String := "<34>Oct 11 22:14:15 mymachine su: root failed"

/-- Buffer for C7: `batch_size = 0` under the size-driven `batch_size`
flush policy, one queued record. -/
def bC7 : InMemoryBuffer :=
  { queue := [lgEx], buffer_capacity := 0, batch_size := 0,
    batch_timeout_ms := 1000, last_flush_at := 0, durability := .InMemory,
    overflow_policy := "drop_newest", drain_policy := "drain_all",
    flush_policy := "batch_size" }

/-- Shipper configuration of spec §8 scenario 4: initial delay 10 ms,
backoff factor 2, jitter 0, retry indefinitely. -/
def cfgC8 : ShipperConfig :=
  { embedder_target_addr := "http://127.0.0.1:50051",
    connection_timeout_ms := 1000, max_reconnect_attempts := none,
    initial_retry_delay_ms := 10, max_retry_delay_ms := 1000,
    backoff_factor := 2, retry_jitter := 0,
    send_timeout_ms := 1000, response_timeout_ms := 1000 }

/-- Embedder that refuses the first 4 connection attempts and accepts the
5th (spec §8 scenario 4). -/
def connectsC8 (n : Nat) : Bool := decide (n ≥ 5)

/-- Configuration for the C10 trace: bounded buffer of capacity 1. -/
def cfgC10 : BufferConfig :=
  { capacity_option := "bounded", buffer_capacity := 1, batch_size := 100,
    batch_timeout_ms := 1000, durability := .InMemory,
    overflow_policy := "drop_newest", drain_policy := "drain_all",
    flush_policy := "batch_size" }

def bC10zero : InMemoryBuffer :=
  { queue := [], buffer_capacity := 1, batch_size := 100,
    batch_timeout_ms := 1000, last_flush_at := 0, durability := .InMemory,
    overflow_policy := "drop_newest", drain_policy := "drain_all",
    flush_policy := "batch_size" }

def bC10one : InMemoryBuffer := { bC10zero with queue := [lgEx] }

def bC10two : InMemoryBuffer := { bC10zero with queue := [lgEx, lgEx2] }

/-- Unbounded buffer (capacity option 0) used by the C10 witness. -/
def bCap0 : InMemoryBuffer :=
  { queue := [lgEx], buffer_capacity := 0, batch_size := 100,
    batch_timeout_ms := 1000, last_flush_at := 0, durability := .InMemory,
    overflow_policy := "drop_newest", drain_policy := "drain_all",
    flush_policy := "batch_size" }

/-- Shared helper: the over-capacity state `bC10two` is reachable through
`new` and two `push` calls on a full bounded `drop_newest` buffer. -/
lemma bC10two_reachable : BufferReachable bC10two := by
  have h0 : BufferReachable bC10zero :=
    BufferReachable.new
      (show InMemoryBuffer.new cfgC10 0 true = Except.ok bC10zero from rfl)
  have h1 : BufferReachable bC10one :=
    BufferReachable.pushOk h0
      (show bC10zero.push lgEx 0 true = PushResult.ok bC10one from rfl)
  exact BufferReachable.pushOk h1
    (show bC10one.push lgEx2 0 true = PushResult.ok bC10two from rfl)

/-! ## Claim theorems -/

/-- C1: the claim says a failed per-batch SQL transaction leaves every record
of the failed batch in the in-memory queue.  In the source, `flush` drains
the queue (line 339) before opening the transaction, and a transaction error
propagates via `?` without restoring the drained records: on `bSqlC1`
(queue = [lgEx], batch_size = 1) a failed transaction returns `Err` with the
queue already empty — the failed batch is gone from memory and cannot be
retried from the queue. -/
theorem c1_flush_sqlite_failure_loses_batch_from_queue :
    bSqlC1.flush lgEx 5 false = .err { bSqlC1 with queue := [] } ∧
    bSqlC1.queue = [lgEx] :=
  ⟨rfl, rfl⟩

/-- C2: the claim says a full bounded `drop_newest` buffer rejects the pushed
record and leaves the queue unchanged.  In the source, `push` invokes
`self.handle_overflow()` without `.await` (line 241) — the future is dropped
unpolled — and appends unconditionally: on the full `bFullC2` (capacity 1,
queue = [lgEx]) pushing `lgEx2` returns `Ok` with queue [lgEx, lgEx2] of
length 2 > capacity 1.  Even the handler body itself, had it run, returns
`Ok(false)` for `drop_newest` without touching the queue, and `push` ignores
that result. -/
theorem c2_push_drop_newest_appends_beyond_capacity :
    bFullC2.push lgEx2 0 true = .ok { bFullC2 with queue := [lgEx, lgEx2] } ∧
    bFullC2.buffer_capacity = 1 ∧
    bFullC2.overflow_policy = "drop_newest" ∧
    bFullC2.handle_overflow = .ok bFullC2 false :=
  ⟨rfl, rfl, rfl, rfl⟩

/-- C3: the claim says a `FileDiscovered` event for an identity with no
running Tailer spawns a Tailer whose offset comes from the Checkpoint (42 for
inode 7 in `cpC3`).  In the source, `start_tailer` passes the literal `0` as
the offset (tailer.rs line 83) and never receives the checkpoint, so the
spawned Tailer starts at 0; the already-running case is indeed ignored. -/
theorem c3_start_tailer_ignores_checkpoint_offset :
    (handle_event (.Start 7 "/var/log/app.log") []).2 =
      some (Tailer.new 7 "/var/log/app.log" 0) ∧
    specTailerStartOffset cpC3 7 = 42 ∧
    (start_tailer 7 "/var/log/app.log" [7]) = ([7], none) :=
  ⟨rfl, rfl, rfl⟩

/-- C4: the claim says `Shipper::send` returns `QueueFull` when the handoff
channel is saturated, rather than suspending.  The source awaits
`mpsc::Sender::send`, which suspends on a full open channel and yields `Err`
only when the channel is closed, so on the saturated open `chFullC4` the
caller suspends; `QueueFull` is produced exactly when the channel is
closed. -/
theorem c4_send_suspends_on_saturated_channel :
    shipperSend chFullC4 bC7 = .suspended ∧
    (∀ (ch : MpscChannel InMemoryBuffer) (batch : InMemoryBuffer),
      shipperSend ch batch = .error .QueueFull ↔ ch.closed = true) := by
  refine ⟨rfl, fun ch batch => ?_⟩
  unfold shipperSend mpscSend
  rcases hc : ch.closed
  · simp only [hc, Bool.false_eq_true, if_false]
    constructor
    · intro h
      by_cases hl : ch.msgs.length < ch.capacity
      · rw [if_pos hl] at h
        exact absurd h (by simp)
      · rw [if_neg hl] at h
        exact absurd h (by simp)
    · intro h
      exact absurd h (by simp)
  · simp [hc]

/-- C5: the claim says the checkpointed offset for an identity never
decreases across watcher operations.  In the source, `build_payload`
(watcher.rs line 38) inserts `FileState { offset: 0 }` unconditionally on a
native `FileDiscovered` event: after bootstrap records offset 42 for inode 7
(`cpC5a`), a native create event for the same inode resets it to 0
(`cpC5b`). -/
theorem c5_native_discovered_decreases_checkpoint_offset :
    (cpC5a.lookupState 7).map FileState.offset = some 42 ∧
    (cpC5b.lookupState 7).map FileState.offset = some 0 ∧
    (0 : Nat) < 42 :=
  ⟨rfl, rfl, by decide⟩

/-- C6: the claim says lines matching the spec's syslog detection regexes are
classified RFC5424 / RFC3164.  The regexes in the source differ from the
spec's: the RFC3164 pattern lacks the `>` after the priority digits and the
RFC5424 pattern's date part is `\d{4}-\d{2}T` with no day-of-month, so the
spec-conforming lines `s5424ex` and `s3164ex` match neither source pattern
and `detect_format` classifies both as `Unknown`. -/
theorem c6_spec_syslog_lines_classified_unknown :
    specSyslog5424Match s5424ex.toList = true ∧
    detect_format s5424ex = .Unknown ∧
    specSyslog3164Match s3164ex.toList = true ∧
    detect_format s3164ex = .Unknown :=
  ⟨rfl, rfl, rfl, rfl⟩

/-- C7 counterexample: the claim says that with `batch_size = 0` under a
size-driven flush policy every flush after a push removes the pushed records
and returns them in the batch.  On `bC7` (queue = [lgEx], batch_size = 0,
policy "batch_size") the flush fires but `flush_count = min(0, 1) = 0`: the
returned batch is empty and `lgEx` stays in the queue. -/
theorem c7_flush_batch_size_zero_returns_empty_batch :
    bC7.flush lgEx2 5 true =
      .ok (some { bC7 with queue := [] }) { bC7 with last_flush_at := 5 } ∧
    bC7.queue = [lgEx] ∧
    lgEx ∉ ({ bC7 with queue := [] } : InMemoryBuffer).queue ∧
    ({ bC7 with last_flush_at := 5 } : InMemoryBuffer).queue ≠ [] :=
  ⟨rfl, rfl, by simp, by simp [bC7]⟩

/-- C7 amended: when `batch_size = 0` under a size-driven flush policy, every
flush evaluation fires (`should_flush` holds since `queue_len ≥ 0`), but per
`flush_count = min(batch_size, queue_len) = 0` the produced batch is empty
and the queue is unchanged — no record is removed by such a flush. -/
theorem c7_flush_batch_size_zero_fires_with_empty_batch
    (b : InMemoryBuffer) (lg : NormalizedLog) (now : Nat) (tx : Bool)
    (hbs : b.batch_size = 0)
    (hp : b.flush_policy = "batch_size" ∨ b.flush_policy = "hybrid_size_timeout")
    (hd : b.durability = .InMemory ∨ tx = true) :
    b.flush lg now tx =
      .ok (some { b with queue := [] }) { b with last_flush_at := now } := by
  have htx : b.durability = .SQLite → tx = true := by
    intro hsq
    rcases hd with hd | hd
    · rw [hd] at hsq
      cases hsq
    · exact hd
  rcases hq : b.durability with _ | _
  · rcases hp with hp | hp <;>
      simp [InMemoryBuffer.flush, hp, hbs, hq, Nat.zero_le]
  · have ht : tx = true := htx hq
    rcases hp with hp | hp <;>
      simp [InMemoryBuffer.flush, hp, hbs, hq, ht, Nat.zero_le]

/-- C7 witness: the amended theorem applied to the concrete buffer `bC7`. -/
theorem c7_flush_batch_size_zero_witness :
    bC7.flush lgEx 7 false =
      .ok (some { bC7 with queue := [] }) { bC7 with last_flush_at := 7 } :=
  c7_flush_batch_size_zero_fires_with_empty_batch bC7 lgEx 7 false rfl
    (Or.inl rfl) (Or.inl rfl)

/-- C8: the claim says that with `initial_retry_delay_ms = 10`,
`backoff_factor = 2`, `retry_jitter = 0` and four failing attempts, the
sleeps are 10, 20, 40, 80 ms.  In the source the jitter factor is drawn with
`gen_range(1.0 - retry_jitter..1.0 + retry_jitter)`; with `retry_jitter = 0`
that half-open range `1.0..1.0` is empty and rand panics ("cannot sample
empty range") on the first failure, before any sleep is performed. -/
theorem c8_connect_retry_panics_on_zero_jitter :
    connect_with_retry cfgC8 connectsC8 (fun _ => 0) 10 = .panicked [] ∧
    genRange (1 - (0 : ℚ)) (1 + (0 : ℚ)) 0 = none := by
  have hg : ∀ u : ℚ, genRange (1 - (0 : ℚ)) (1 + (0 : ℚ)) u = none := by
    intro u
    simp [genRange]
  have hg1 : genRange (1 : ℚ) 1 0 = none := by
    simp [genRange]
  refine ⟨?_, hg 0⟩
  show connectRetryGo cfgC8 connectsC8 (fun _ => 0) (9 + 1) 0 10 = .panicked []
  rw [connectRetryGo]
  simp only [connectsC8, cfgC8]
  norm_num
  rw [hg1]

/-- C9: the round trip NormalizedLog → wire → NormalizedLog is the identity
on timestamp, level, message, metadata and raw_line, the wire form encoding
the timestamp as (seconds, nanos).  The hypothesis is chrono's invariant on
the nanosecond field (values below 2·10⁹, leap seconds included), under
which the `as i32` cast is lossless. -/
theorem c9_normalized_log_wire_round_trip (lg : NormalizedLog)
    (h : lg.timestamp.nanos < 2000000000) :
    protoToNormalizedLog (normalizedLogToProto lg) = lg := by
  obtain ⟨⟨secs, nanos⟩, lv, msg, md, raw⟩ := lg
  have h32 : nanos < 2 ^ 32 := lt_trans h (by norm_num)
  have h31 : nanos < 2 ^ 31 := lt_of_lt_of_le h (by norm_num)
  simp only [protoToNormalizedLog, normalizedLogToProto, castU32ToI32,
    metadataToProto]
  rw [Nat.mod_eq_of_lt h32, if_pos h31]
  simp only [Int.toNat_natCast, Option.map_map]
  cases md with
  | none => rfl
  | some m => rfl

/-- C9 witness: the round trip evaluated on the concrete record `lgEx`. -/
theorem c9_round_trip_witness :
    protoToNormalizedLog (normalizedLogToProto lgEx) = lgEx :=
  c9_normalized_log_wire_round_trip lgEx (by decide)

/-- C10 counterexample: the claim says `queue.len() ≤ buffer_capacity` holds
on every bounded buffer state reachable through `new`, `push`, `flush` and
`drain`.  The state `bC10two` — reached by `new` on the bounded capacity-1
configuration `cfgC10` followed by two pushes, the second on the full
buffer — has queue length 2 over capacity 1, and there
`check_buffer_capacity`'s `usize` subtraction underflows. -/
theorem c10_overfull_state_reachable :
    BufferReachable bC10two ∧
    bC10two.buffer_capacity = 1 ∧
    bC10two.queue.length = 2 ∧
    bC10two.check_buffer_capacity = none :=
  ⟨bC10two_reachable, rfl, rfl, rfl⟩

/-- C10 amended: `check_buffer_capacity` returns `usize::MAX` when
`buffer_capacity = 0` and computes `buffer_capacity − queue.len()` without
underflow whenever `queue.len() ≤ buffer_capacity`; but buffer states with
`queue.len() > buffer_capacity` are reachable through `new` and `push`
(a push on a full bounded buffer still appends, since the un-awaited
overflow handler never runs), and on those the subtraction underflows. -/
theorem c10_check_buffer_capacity_amended :
    (∀ b : InMemoryBuffer, b.buffer_capacity = 0 →
      b.check_buffer_capacity = some usizeMax) ∧
    (∀ b : InMemoryBuffer, b.buffer_capacity ≠ 0 →
      b.queue.length ≤ b.buffer_capacity →
      b.check_buffer_capacity = some (b.buffer_capacity - b.queue.length)) ∧
    (∃ b : InMemoryBuffer, BufferReachable b ∧ b.check_buffer_capacity = none) := by
  refine ⟨fun b h => ?_, fun b h1 h2 => ?_, ⟨bC10two, bC10two_reachable, rfl⟩⟩
  · simp [InMemoryBuffer.check_buffer_capacity, h]
  · simp [InMemoryBuffer.check_buffer_capacity, h1, h2]

/-- C10 witness: the amended theorem applied to the unbounded `bCap0` and to
the within-capacity bounded state `bC10one`. -/
theorem c10_check_buffer_capacity_witness :
    bCap0.check_buffer_capacity = some usizeMax ∧
    bC10one.check_buffer_capacity = some (1 - 1) :=
  ⟨c10_check_buffer_capacity_amended.1 bCap0 rfl,
   c10_check_buffer_capacity_amended.2.1 bC10one (by decide) (by decide)⟩

end VES
